import Mathlib

/-!
Verification of the UltraControl repository fragments: the WebSocket event
gateway (`openhands/server/routes/websocket_events.py`) and the devin-clone
backend (subscription endpoints, auth schemas, config, disabled Stripe
client).  Each Python function used by the claims is shallowly embedded as an
executable Lean definition, and the claims are settled as theorems about
those definitions.
-/

namespace UltraControl

/-! ## JSON values

A model of the Python values produced by `json.loads`: null, booleans,
numbers, strings, arrays and objects.  Arrays and objects are encoded as
cons-chains (`arrNil`/`arrCons`, `objNil`/`objCons`) so that decidable
equality is derivable; an object is a sequence of key-value bindings with
unique keys, as produced by the JSON parser.  Numbers are modelled as
integers; no claim involves fractional numeric payloads. -/

inductive Json where
  | null : Json
  | bool : Bool → Json
  | num : Int → Json
  | str : String → Json
  | arrNil : Json
  | arrCons : Json → Json → Json
  | objNil : Json
  | objCons : String → Json → Json → Json
deriving Repr, DecidableEq, Inhabited

namespace Json

/-- Whether the value is a Python dict. -/
def isDict : Json → Bool
  | .objNil => true
  | .objCons _ _ _ => true
  | _ => false

/-- First binding for `key` in an object chain; `none` on anything that is
not an `objCons` binding.  Parsed JSON objects have unique keys, so
first-match lookup agrees with Python dict lookup. -/
def lookupField : Json → String → Option Json
  | .objCons k v rest, key => if k = key then some v else lookupField rest key
  | _, _ => none

/-- Python `d.get(key)` on a dict: `some v` when present, `none` (Python
`None`) otherwise.  The gateway only calls `.get` on dicts. -/
def get (j : Json) (key : String) : Option Json := j.lookupField key

/-- Python `x in xs` element membership for a JSON array chain. -/
def arrContains : Json → Json → Bool
  | .arrCons x rest, v => x = v || arrContains rest v
  | _, _ => false

end Json

/-- Whether the character list `needle` occurs contiguously in `hay`
(Python substring membership `needle in hay`). -/
def listHasInfix (needle : List Char) : List Char → Bool
  | [] => needle.isEmpty
  | c :: rest => needle.isPrefixOf (c :: rest) || listHasInfix needle rest

/-- Python `key in v` where `key` is a string: key membership for dicts,
element membership for lists, substring test for strings, and a `TypeError`
(modelled as `none`) for every other value. -/
def pyContains : Json → String → Option Bool
  | .objNil, _ => some false
  | .objCons k v rest, key => some ((Json.objCons k v rest).lookupField key).isSome
  | .arrNil, _ => some false
  | .arrCons x rest, key => some ((Json.arrCons x rest).arrContains (.str key))
  | .str s, key => some (listHasInfix key.toList s.toList)
  | _, _ => none

/-- Python `v[key]` where `key` is a string: dict lookup.  A missing key's
`KeyError` and a non-dict's `TypeError` are both modelled as `none`; in the
gateway either is caught by the generic per-frame handler. -/
def pySubscript (j : Json) (key : String) : Option Json := j.lookupField key

/-! ## Event gateway (`websocket_events.py`) -/

/-- `EventStreamMock.add_event` (lines 22-27): when the `actionType` of the
envelope equals `"ECHO_ACTION"`, return the echo observation dict
carrying `event.get("details")` (Python `None`, i.e. `null`, when absent);
otherwise return `None`.  The `source` argument is only logged. -/
def add_event (event : Json) (source : String) : Option Json :=
  if event.get "actionType" = some (.str "ECHO_ACTION") then
    some (.objCons "observationType" (.str "ECHO_OBSERVATION")
           (.objCons "details" ((event.get "details").getD .null) .objNil))
  else
    none

/-- The observation payload built at lines 104-111.  Python evaluates
`message_data.get("eventId", "") + "_obs"` first; if the stored `eventId`
value is not a string the `+` raises a `TypeError`, modelled as `.error`
(caught by the generic per-frame handler, whose exception text is
abstracted). -/
def buildObservationPayload (message_data response : Json) : Except String Json :=
  match (message_data.get "eventId").getD (.str "") with
  | .str e =>
      .ok (.objCons "eventId" (.str (e ++ "_obs"))
            (.objCons "timestamp" ((message_data.get "timestamp").getD (.str ""))
              (.objCons "source" (.str "WebSocketGateway")
                (.objCons "type" (.str "observation")
                  (.objCons "observationType" ((response.get "observationType").getD .null)
                    (.objCons "details" ((response.get "details").getD .null) .objNil))))))
  | _ => .error "TypeError"

/-- The reply envelope for a non-action or malformed-action frame (line 119). -/
def invalidFormatReply : Json :=
  .objCons "error" (.str "Invalid message format, expected ActionPayload") .objNil

/-- The reply envelope for a frame that fails JSON parsing (line 123). -/
def invalidJsonReply : Json :=
  .objCons "error" (.str "Invalid JSON format") .objNil

/-- The generic server-error envelope (line 126); the interpolated exception
text is abstracted as `msg` (no claim depends on it). -/
def serverErrorReply (msg : String) : Json :=
  .objCons "error" (.str ("Server error: " ++ msg)) .objNil

/-- The acknowledgment envelope (line 115). -/
def ackReply : Json :=
  .objCons "status" (.str "action_received_but_no_direct_response") .objNil

/-- Handling of one successfully parsed JSON value (lines 96-126): the
action-shape check `"type" in m and m["type"] == "action" and
"actionType" in m` with short-circuiting and `TypeError`/`KeyError`
modelling, then the mock sink call and reply construction. -/
def processParsed (client_id : String) (message_data : Json) : Json :=
  match pyContains message_data "type" with
  | none => serverErrorReply "TypeError"
  | some false => invalidFormatReply
  | some true =>
      match pySubscript message_data "type" with
      | none => serverErrorReply "TypeError"
      | some tv =>
          if tv = .str "action" then
            match pyContains message_data "actionType" with
            | none => serverErrorReply "TypeError"
            | some false => invalidFormatReply
            | some true =>
                match add_event message_data ("ws_client:" ++ client_id) with
                | some response =>
                    match buildObservationPayload message_data response with
                    | .ok payload => payload
                    | .error e => serverErrorReply e
                | none => ackReply
          else invalidFormatReply

/-- One received text frame, by its `json.loads` outcome: `valid j` when the
text parses to the value `j`, `invalid raw` when parsing raises
`JSONDecodeError`. -/
inductive Frame where
  | valid : Json → Frame
  | invalid : String → Frame
deriving Repr, DecidableEq

/-- Processing of one received frame inside the `while True` loop
(lines 90-126): every frame yields exactly one reply envelope, and the loop
continues regardless of the content of the frame. -/
def processFrame (client_id : String) : Frame → Json
  | .valid j => processParsed client_id j
  | .invalid _ => invalidJsonReply

/-- The per-connection receive loop (lines 89-126) over the finite sequence
of frames received before the client disconnects: one reply is sent per
frame, in order. -/
def websocketLoop (client_id : String) (frames : List Frame) : List Json :=
  frames.map (processFrame client_id)

/-! ## Connection registry (`ConnectionManager`, lines 43-54)

Live connections are identified by natural numbers (each accepted WebSocket
is a distinct Python object). -/

structure ConnectionManager where
  active_connections : List Nat
deriving Repr, DecidableEq

namespace ConnectionManager

/-- `ConnectionManager.connect` after a successful `websocket.accept()`
(lines 47-49): append the accepted connection to the registry. -/
def connect (m : ConnectionManager) (ws : Nat) : ConnectionManager :=
  { active_connections := m.active_connections ++ [ws] }

/-- `ConnectionManager.disconnect` (lines 52-54): `list.remove` deletes the
first occurrence and raises `ValueError` (modelled as `none`) when the
connection is not in the registry. -/
def disconnect (m : ConnectionManager) (ws : Nat) : Option ConnectionManager :=
  if ws ∈ m.active_connections then
    some { active_connections := m.active_connections.erase ws }
  else
    none

end ConnectionManager

/-- One registry-affecting step of some per-connection task: a completed
`connect` (accept succeeded, connection appended) or the terminal cleanup
`disconnect` of a connection. -/
inductive RegistryEvent where
  | connect : Nat → RegistryEvent
  | disconnect : Nat → RegistryEvent
deriving Repr, DecidableEq

/-- Runs a sequence of registry events; a `disconnect` whose `list.remove`
raises aborts the run with `none`. -/
def runRegistry : List RegistryEvent → ConnectionManager → Option ConnectionManager
  | [], m => some m
  | .connect ws :: evs, m => runRegistry evs (m.connect ws)
  | .disconnect ws :: evs, m =>
      match m.disconnect ws with
      | some m1 => runRegistry evs m1
      | none => none

/-- Number of accepted connections in a trace. -/
def connectCount : List RegistryEvent → Nat
  | [] => 0
  | .connect _ :: evs => connectCount evs + 1
  | .disconnect _ :: evs => connectCount evs

/-- Number of terminated connections in a trace. -/
def disconnectCount : List RegistryEvent → Nat
  | [] => 0
  | .connect _ :: evs => disconnectCount evs
  | .disconnect _ :: evs => disconnectCount evs + 1

/-- Outcome of one run of `websocket_endpoint` with respect to the
registry. -/
inductive LifecycleOutcome where
  | acceptFailed : LifecycleOutcome
  | cleanedOk : LifecycleOutcome
  | cleanupRaised : LifecycleOutcome
deriving Repr, DecidableEq

/-- Control flow of `websocket_endpoint` around the registry
(lines 76-135): `await manager.connect(websocket)` precedes the `try`
statement, so when `accept` raises, nothing was appended and the `finally`
cleanup is never entered (`acceptFailed`); otherwise the receive loop runs
(it never touches the registry) and the `finally` block calls
`manager.disconnect`, which either removes the connection (`cleanedOk`) or
raises `ValueError` (`cleanupRaised`). -/
def websocketEndpointLifecycle (ws : Nat) (acceptOk : Bool)
    (m : ConnectionManager) : ConnectionManager × LifecycleOutcome :=
  if acceptOk then
    let m1 := m.connect ws
    match m1.disconnect ws with
    | some m2 => (m2, .cleanedOk)
    | none => (m1, .cleanupRaised)
  else
    (m, .acceptFailed)

/-! ## Subscription API (`subscription.py`) -/

/-- Modelled from the spec: `app.models.SubscriptionPlan` is imported by
`subscription.py` but its module is not among the given source files; the
spec (§3) enumerates `FREE` and at least one paid tier. -/
inductive SubscriptionPlan where
  | FREE : SubscriptionPlan
  | PRO : SubscriptionPlan
deriving Repr, DecidableEq

/-- Modelled from the spec: `app.models.subscription.SubscriptionStatus` is
imported by `stripe_client.py` but its module is not among the given source
files; the spec (§3) enumerates e.g. `ACTIVE`, `CANCELED`, `PAST_DUE`. -/
inductive SubscriptionStatus where
  | ACTIVE : SubscriptionStatus
  | CANCELED : SubscriptionStatus
  | PAST_DUE : SubscriptionStatus
deriving Repr, DecidableEq

/-- The fields of a Project read by `get_subscription_info`. -/
structure Project where
  total_size_kb : Int
deriving Repr, DecidableEq

/-- The fields of the current user record read by the subscription
endpoints. -/
structure User where
  projects : List Project
  subscription_plan : SubscriptionPlan
  tokens_used : Int
  tokens_limit : Int
deriving Repr, DecidableEq

/-- The usage dict computed at lines 55-62.  Python float division is
modelled over `ℚ` (the operands are integers, so the quotient is exact in
the double range used here). -/
structure Usage where
  projects : Nat
  max_projects : Int
  tokens_used : Int
  tokens_limit : Int
  storage_used_mb : ℚ
  storage_limit_mb : Int
deriving Repr, DecidableEq

/-- The `SubscriptionInfo` response (lines 64-70).  `current_plan` is the
`.value` string of the plan enum; the string values of the enum live in the
absent models module, so the plan itself is carried. -/
structure SubscriptionInfo where
  has_subscription : Bool
  subscription : Option Unit
  current_plan : SubscriptionPlan
  can_upgrade : Bool
  usage : Usage
deriving Repr, DecidableEq

/-- `GET /subscription` (`get_subscription_info`, lines 45-70). -/
def get_subscription_info (current_user : User) : SubscriptionInfo :=
  let usage : Usage :=
    { projects := current_user.projects.length
      max_projects := if current_user.subscription_plan = .FREE then 1 else -1
      tokens_used := current_user.tokens_used
      tokens_limit := current_user.tokens_limit
      storage_used_mb :=
        if current_user.projects ≠ [] then
          ((current_user.projects.map Project.total_size_kb).sum : ℚ) / 1024
        else 0
      storage_limit_mb := if current_user.subscription_plan = .FREE then 10 else 1024 }
  { has_subscription := false
    subscription := none
    current_plan := current_user.subscription_plan
    can_upgrade := decide (current_user.subscription_plan = .FREE)
    usage := usage }

/-- `fastapi.HTTPException` as raised by the disabled endpoints. -/
structure HTTPException where
  status_code : Nat
  detail : String
deriving Repr, DecidableEq

/-- `POST /checkout` (`create_checkout_session`, lines 73-86): raises 503
for any request body and any authenticated user; the db session is unused. -/
def create_checkout_session (Req : Type) (checkout_request : Req)
    (current_user : User) : Except HTTPException Unit :=
  .error { status_code := 503, detail := "Payment processing is currently unavailable" }

/-- `POST /portal` (`create_portal_session`, lines 89-102). -/
def create_portal_session (Req : Type) (portal_request : Req)
    (current_user : User) : Except HTTPException Unit :=
  .error { status_code := 503, detail := "Customer portal is currently unavailable" }

/-- `POST /cancel` (`cancel_subscription`, lines 105-117); takes no request
body. -/
def cancel_subscription (current_user : User) : Except HTTPException Unit :=
  .error { status_code := 503, detail := "Subscription management is currently unavailable" }

/-- `POST /reactivate` (`reactivate_subscription`, lines 120-132); takes no
request body. -/
def reactivate_subscription (current_user : User) : Except HTTPException Unit :=
  .error { status_code := 503, detail := "Subscription management is currently unavailable" }

/-! ## Disabled Stripe client (`stripe_client.py`) -/

/-- `StripeClient.map_subscription_status` (lines 99-102): constant
`CANCELED`. -/
def map_subscription_status (stripe_status : String) : SubscriptionStatus :=
  SubscriptionStatus.CANCELED

/-! ## Configuration (`config.py`) -/

/-- The possible shapes of the raw `BACKEND_CORS_ORIGINS` value handed to
the validator: Python `None`, a string, a list of strings, or any other
value (carried with a printable description used in the `ValueError`). -/
inductive CorsInput where
  | pyNone : CorsInput
  | pyStr : String → CorsInput
  | pyList : List String → CorsInput
  | other : String → CorsInput
deriving Repr, DecidableEq

/-- The value the validator returns: a list, or the raw string passed
through (a string beginning with `"["` is returned unchanged). -/
inductive CorsValue where
  | strVal : String → CorsValue
  | listVal : List String → CorsValue
deriving Repr, DecidableEq

/-- Splits a character list at every occurrence of `sep`, keeping empty
segments, exactly as Python `str.split(sep)` does for a one-character
separator. -/
def splitCharsOn (sep : Char) : List Char → List (List Char)
  | [] => [[]]
  | c :: rest =>
      match splitCharsOn sep rest with
      | h :: t => if c = sep then [] :: h :: t else (c :: h) :: t
      | [] => if c = sep then [[], []] else [[c]]

/-- Python `v.split(",")`. -/
def pySplitComma (s : String) : List String :=
  (splitCharsOn ',' s.toList).map String.mk

/-- Python `i.strip()`: removes leading and trailing whitespace (the ASCII
whitespace characters suffice for the configured origin strings). -/
def pyStrip (s : String) : String :=
  String.mk (((s.toList.dropWhile Char.isWhitespace).reverse.dropWhile
    Char.isWhitespace).reverse)

/-- Python `v.startswith("[")`. -/
def startsWithBracket (s : String) : Bool :=
  match s.toList with
  | [] => false
  | c :: _ => c = '['

/-- `Settings.assemble_cors_origins` (config.py lines 32-41): `None` gives
the default list; a string not starting with `"["` is split on commas and
each item stripped; a list (or a bracket-initial string) is returned as is;
anything else raises `ValueError` (modelled as `.error`). -/
def assemble_cors_origins : CorsInput → Except String CorsValue
  | .pyNone => .ok (.listVal ["http://localhost:3000"])
  | .pyStr v =>
      if ¬ startsWithBracket v then
        .ok (.listVal ((pySplitComma v).map pyStrip))
      else
        .ok (.strVal v)
  | .pyList v => .ok (.listVal v)
  | .other d => .error d

/-! ## Guest user schema (`schemas/auth.py`) -/

/-- The alphabet `string.ascii_lowercase + string.digits` used by
`random.choices` for guest credential suffixes. -/
def guestAlphabet : List Char := "abcdefghijklmnopqrstuvwxyz0123456789".toList

/-- The validated `GuestUserCreate` record (auth.py lines 83-87). -/
structure GuestUserCreate where
  username : String
  email : String
  is_guest : Bool
deriving Repr, DecidableEq

/-- Python falsy test `not values.get(key)` for an optional string field:
true for an absent key (`None`) and for the empty string. -/
def pyFalsyStr : Option String → Bool
  | none => true
  | some s => s.isEmpty

/-- `GuestUserCreate.generate_guest_credentials` (auth.py lines 89-101): a
falsy username becomes `"guest_"` plus a 6-character random suffix, a falsy
email becomes `"guest_"` plus an 8-character random suffix plus
`"@guest.devinclone.app"`, and `is_guest` is forced to true.  The outcomes
of the two `random.choices` draws are passed as `s6` and `s8`; any draw is a
list of characters of `guestAlphabet` of the requested length. -/
def generate_guest_credentials (username email : Option String)
    (is_guest : Option Bool) (s6 s8 : List Char) : GuestUserCreate :=
  let u := if pyFalsyStr username then "guest_" ++ String.mk s6 else username.getD ""
  let e :=
    if pyFalsyStr email then
      "guest_" ++ String.mk s8 ++ "@guest.devinclone.app"
    else
      email.getD ""
  { username := u, email := e, is_guest := true }

/-- Whether a character is in the class `[a-z0-9]`. -/
def isLowerAlnum (c : Char) : Bool :=
  ('a' ≤ c && c ≤ 'z') || ('0' ≤ c && c ≤ '9')

/-- Decidable match for the regex `^guest_[a-z0-9]{6}$`. -/
def matchesGuestUsername (s : String) : Bool :=
  let l := s.toList
  l.take 6 == "guest_".toList
    && (l.drop 6).length == 6
    && (l.drop 6).all isLowerAlnum

/-- Decidable match for the regex
`^guest_[a-z0-9]{8}@guest\.devinclone\.app$`. -/
def matchesGuestEmail (s : String) : Bool :=
  let l := s.toList
  l.take 6 == "guest_".toList
    && ((l.drop 6).take 8).length == 8
    && ((l.drop 6).take 8).all isLowerAlnum
    && (l.drop 6).drop 8 == "@guest.devinclone.app".toList

/-! ## Theorems -/

/-- Every character of the guest alphabet is in the class `[a-z0-9]`. -/
theorem guestAlphabet_lowerAlnum : ∀ c ∈ guestAlphabet, isLowerAlnum c = true := by
  decide

/-- Accounting lemma for registry runs: each completed run changes the
registry size by the number of accepts minus the number of removals. -/
theorem runRegistry_length_eq (evs : List RegistryEvent) :
    ∀ m m' : ConnectionManager, runRegistry evs m = some m' →
      m'.active_connections.length + disconnectCount evs
        = m.active_connections.length + connectCount evs := by
  induction evs with
  | nil =>
      intro m m' h
      cases h
      rfl
  | cons e evs ih =>
      intro m m' h
      cases e with
      | connect ws =>
          have hstep := ih (m.connect ws) m' h
          simp [connectCount, disconnectCount, ConnectionManager.connect] at *
          omega
      | disconnect ws =>
          dsimp [runRegistry] at h
          cases hd : m.disconnect ws with
          | none => rw [hd] at h; cases h
          | some m1 =>
              rw [hd] at h
              have hstep := ih m1 m' h
              dsimp [ConnectionManager.disconnect] at hd
              split at hd
              · next hmem =>
                  cases hd
                  have hlen := List.length_erase_add_one hmem
                  simp [connectCount, disconnectCount] at *
                  omega
              · cases hd

/-- C1: an action envelope with `actionType = "ECHO_ACTION"`, event id `e`,
timestamp `t` and details `d` gets exactly one reply: the observation
envelope with event id `e ++ "_obs"`, the original timestamp, source
`"WebSocketGateway"`, type `"observation"`, observation type
`"ECHO_OBSERVATION"` and the details unchanged. -/
theorem gateway_echo_roundtrip (client_id e : String) (t d : Json) (j : Json)
    (htype : j.get "type" = some (.str "action"))
    (hact : j.get "actionType" = some (.str "ECHO_ACTION"))
    (heid : j.get "eventId" = some (.str e))
    (hts : j.get "timestamp" = some t)
    (hdet : j.get "details" = some d) :
    websocketLoop client_id [.valid j]
      = [.objCons "eventId" (.str (e ++ "_obs"))
          (.objCons "timestamp" t
            (.objCons "source" (.str "WebSocketGateway")
              (.objCons "type" (.str "observation")
                (.objCons "observationType" (.str "ECHO_OBSERVATION")
                  (.objCons "details" d .objNil)))))] := by
  cases j with
  | objCons k v rest =>
      simp only [Json.get, Json.lookupField] at htype hact heid hts hdet
      simp [websocketLoop, processFrame, processParsed, pyContains, pySubscript,
        add_event, buildObservationPayload, Json.get, Json.lookupField,
        htype, hact, heid, hts, hdet]
  | null => simp [Json.get, Json.lookupField] at htype
  | bool b => simp [Json.get, Json.lookupField] at htype
  | num n => simp [Json.get, Json.lookupField] at htype
  | str s => simp [Json.get, Json.lookupField] at htype
  | arrNil => simp [Json.get, Json.lookupField] at htype
  | arrCons x xs => simp [Json.get, Json.lookupField] at htype
  | objNil => simp [Json.get, Json.lookupField] at htype

/-- C1 witness: the round-trip at the concrete spec example. -/
theorem gateway_echo_roundtrip_witness :
    websocketLoop "unknown"
        [.valid (.objCons "type" (.str "action")
          (.objCons "actionType" (.str "ECHO_ACTION")
            (.objCons "eventId" (.str "e1")
              (.objCons "timestamp" (.str "t1")
                (.objCons "details" (.objCons "x" (.num 1) .objNil) .objNil)))))]
      = [.objCons "eventId" (.str "e1_obs")
          (.objCons "timestamp" (.str "t1")
            (.objCons "source" (.str "WebSocketGateway")
              (.objCons "type" (.str "observation")
                (.objCons "observationType" (.str "ECHO_OBSERVATION")
                  (.objCons "details" (.objCons "x" (.num 1) .objNil) .objNil)))))] :=
  gateway_echo_roundtrip "unknown" "e1" (.str "t1") (.objCons "x" (.num 1) .objNil)
    (.objCons "type" (.str "action")
      (.objCons "actionType" (.str "ECHO_ACTION")
        (.objCons "eventId" (.str "e1")
          (.objCons "timestamp" (.str "t1")
            (.objCons "details" (.objCons "x" (.num 1) .objNil) .objNil)))))
    rfl rfl rfl rfl rfl

/-- C2 counterexample: for the echo action supplied without an `eventId`,
the observation sent back carries `"_obs"` as its event identifier, not the
empty string claimed. -/
theorem observation_eventid_default_counterexample :
    (processFrame "unknown" (.valid (.objCons "type" (.str "action")
        (.objCons "actionType" (.str "ECHO_ACTION") .objNil)))).lookupField "eventId"
      = some (.str "_obs")
    ∧ Json.str "_obs" ≠ Json.str "" := by
  exact ⟨rfl, by decide⟩

/-- C2 (amended): for every observation-producing action envelope, an
absent `eventId` field yields an observation whose event identifier is
`"_obs"` (the empty-string default plus the `"_obs"` suffix) while the
timestamp field keeps its usual default, and independently an absent
`timestamp` yields the empty string as the observation timestamp whenever
the stored event id (or its empty-string default) is a string `e`. -/
theorem observation_defaults_when_ids_absent (client_id : String) (j : Json)
    (htype : j.get "type" = some (.str "action"))
    (hact : j.get "actionType" = some (.str "ECHO_ACTION")) :
    (j.get "eventId" = none →
      processFrame client_id (.valid j)
        = .objCons "eventId" (.str "_obs")
            (.objCons "timestamp" ((j.get "timestamp").getD (.str ""))
              (.objCons "source" (.str "WebSocketGateway")
                (.objCons "type" (.str "observation")
                  (.objCons "observationType" (.str "ECHO_OBSERVATION")
                    (.objCons "details" ((j.get "details").getD .null) .objNil))))))
    ∧ (∀ e : String, (j.get "eventId").getD (.str "") = .str e →
        j.get "timestamp" = none →
        processFrame client_id (.valid j)
          = .objCons "eventId" (.str (e ++ "_obs"))
              (.objCons "timestamp" (.str "")
                (.objCons "source" (.str "WebSocketGateway")
                  (.objCons "type" (.str "observation")
                    (.objCons "observationType" (.str "ECHO_OBSERVATION")
                      (.objCons "details" ((j.get "details").getD .null) .objNil)))))) := by
  cases j with
  | objCons k v rest =>
      simp only [Json.get, Json.lookupField] at htype hact ⊢
      constructor
      · intro heid
        simp [processFrame, processParsed, pyContains, pySubscript,
          add_event, buildObservationPayload, Json.get, Json.lookupField,
          htype, hact, heid]
      · intro e he hts
        simp [processFrame, processParsed, pyContains, pySubscript,
          add_event, buildObservationPayload, Json.get, Json.lookupField,
          htype, hact, he, hts]
  | null => simp [Json.get, Json.lookupField] at htype
  | bool b => simp [Json.get, Json.lookupField] at htype
  | num n => simp [Json.get, Json.lookupField] at htype
  | str s => simp [Json.get, Json.lookupField] at htype
  | arrNil => simp [Json.get, Json.lookupField] at htype
  | arrCons x xs => simp [Json.get, Json.lookupField] at htype
  | objNil => simp [Json.get, Json.lookupField] at htype

/-- C2 witness: the amended behaviour at two concrete envelopes — one
without an `eventId` but with a timestamp, and one with an `eventId` but
without a timestamp. -/
theorem observation_defaults_when_ids_absent_witness :
    processFrame "unknown" (.valid (.objCons "type" (.str "action")
        (.objCons "actionType" (.str "ECHO_ACTION")
          (.objCons "timestamp" (.str "t1") .objNil))))
      = .objCons "eventId" (.str "_obs")
          (.objCons "timestamp" (.str "t1")
            (.objCons "source" (.str "WebSocketGateway")
              (.objCons "type" (.str "observation")
                (.objCons "observationType" (.str "ECHO_OBSERVATION")
                  (.objCons "details" Json.null .objNil)))))
    ∧ processFrame "unknown" (.valid (.objCons "type" (.str "action")
        (.objCons "actionType" (.str "ECHO_ACTION")
          (.objCons "eventId" (.str "e1") .objNil))))
      = .objCons "eventId" (.str "e1_obs")
          (.objCons "timestamp" (.str "")
            (.objCons "source" (.str "WebSocketGateway")
              (.objCons "type" (.str "observation")
                (.objCons "observationType" (.str "ECHO_OBSERVATION")
                  (.objCons "details" Json.null .objNil))))) := by
  constructor
  · exact (observation_defaults_when_ids_absent "unknown"
      (.objCons "type" (.str "action")
        (.objCons "actionType" (.str "ECHO_ACTION")
          (.objCons "timestamp" (.str "t1") .objNil)))
      rfl rfl).1 rfl
  · exact (observation_defaults_when_ids_absent "unknown"
      (.objCons "type" (.str "action")
        (.objCons "actionType" (.str "ECHO_ACTION")
          (.objCons "eventId" (.str "e1") .objNil)))
      rfl rfl).2 "e1" rfl rfl

/-- C3: the `GET /subscription` response computes the usage snapshot from
the user record: project count, FREE-dependent project and storage limits,
verbatim token counters, storage as the KB sum divided by 1024, no
subscription, and upgradability exactly for the FREE plan. -/
theorem subscription_info_snapshot (u : User) :
    (get_subscription_info u).usage.projects = u.projects.length
    ∧ (get_subscription_info u).usage.max_projects
        = (if u.subscription_plan = .FREE then 1 else -1)
    ∧ (get_subscription_info u).usage.tokens_used = u.tokens_used
    ∧ (get_subscription_info u).usage.tokens_limit = u.tokens_limit
    ∧ (get_subscription_info u).usage.storage_used_mb
        = ((u.projects.map Project.total_size_kb).sum : ℚ) / 1024
    ∧ (get_subscription_info u).usage.storage_limit_mb
        = (if u.subscription_plan = .FREE then 10 else 1024)
    ∧ (get_subscription_info u).has_subscription = false
    ∧ (get_subscription_info u).subscription = none
    ∧ ((get_subscription_info u).can_upgrade = true ↔ u.subscription_plan = .FREE) := by
  refine ⟨rfl, rfl, rfl, rfl, ?_, rfl, rfl, rfl, ?_⟩
  · by_cases h : u.projects = []
    · simp [get_subscription_info, h]
    · simp [get_subscription_info, h]
  · simp [get_subscription_info]

/-- C5: starting from the empty registry, any successfully completed trace
of accepted connections and loop terminations leaves exactly
`(accepted − terminated)` connections registered. -/
theorem registry_lifecycle (evs : List RegistryEvent) (m' : ConnectionManager)
    (h : runRegistry evs { active_connections := [] } = some m') :
    m'.active_connections.length = connectCount evs - disconnectCount evs := by
  have hacc := runRegistry_length_eq evs { active_connections := [] } m' h
  simp at hacc
  omega

/-- C5 witness: two accepts followed by one termination leave one
registered connection. -/
theorem registry_lifecycle_witness :
    runRegistry [.connect 1, .connect 2, .disconnect 1] { active_connections := [] }
        = some { active_connections := [2] }
    ∧ ({ active_connections := [2] } : ConnectionManager).active_connections.length
        = connectCount [.connect 1, .connect 2, .disconnect 1]
          - disconnectCount [.connect 1, .connect 2, .disconnect 1] :=
  ⟨by decide, registry_lifecycle [.connect 1, .connect 2, .disconnect 1]
      { active_connections := [2] } (by decide)⟩

/-- C6: a frame that fails JSON parsing is answered with the invalid-JSON
error envelope and the receive loop continues: the replies to all
subsequent frames are produced unchanged. -/
theorem gateway_invalid_json_resilience (client_id raw : String)
    (rest : List Frame) :
    websocketLoop client_id (.invalid raw :: rest)
      = .objCons "error" (.str "Invalid JSON format") .objNil
          :: websocketLoop client_id rest :=
  rfl

/-- C7: the CORS validator splits a comma-separated string into the exact
origin list, defaults an absent value to `["http://localhost:3000"]`, and
rejects any value that is neither a list, a string, nor absent with a
`ValueError`. -/
theorem cors_origins_parsing :
    assemble_cors_origins (.pyStr "http://a.com,http://b.com")
        = .ok (.listVal ["http://a.com", "http://b.com"])
    ∧ assemble_cors_origins .pyNone = .ok (.listVal ["http://localhost:3000"])
    ∧ (∀ d, assemble_cors_origins (.other d) = .error d) :=
  ⟨rfl, rfl, fun d => rfl⟩

/-- C8: the four disabled payment endpoints fail with 503 and their fixed
detail strings for every request body and every authenticated user. -/
theorem disabled_payment_endpoints :
    (∀ (Req : Type) (body : Req) (u : User),
        create_checkout_session Req body u
          = .error { status_code := 503,
                     detail := "Payment processing is currently unavailable" })
    ∧ (∀ (Req : Type) (body : Req) (u : User),
        create_portal_session Req body u
          = .error { status_code := 503,
                     detail := "Customer portal is currently unavailable" })
    ∧ (∀ u : User, cancel_subscription u
          = .error { status_code := 503,
                     detail := "Subscription management is currently unavailable" })
    ∧ (∀ u : User, reactivate_subscription u
          = .error { status_code := 503,
                     detail := "Subscription management is currently unavailable" }) :=
  ⟨fun _ _ _ => rfl, fun _ _ _ => rfl, fun _ => rfl, fun _ => rfl⟩

/-- C9: the disabled status-mapping operation of the Stripe client is the
constant function returning `CANCELED`. -/
theorem stripe_status_mapping_constant (s : String) :
    map_subscription_status s = SubscriptionStatus.CANCELED :=
  rfl

/-- C10 counterexample: when acceptance fails before registration, the
endpoint leaves the registry untouched and the `finally` cleanup is never
entered, so it does not raise — refuting the claim that the
termination-path cleanup raises in that scenario. -/
theorem endpoint_accept_failure_counterexample :
    websocketEndpointLifecycle 0 false { active_connections := [] }
        = ({ active_connections := [] }, .acceptFailed)
    ∧ LifecycleOutcome.acceptFailed ≠ LifecycleOutcome.cleanupRaised :=
  ⟨rfl, by decide⟩

/-- C10 (amended): `disconnect` raises for a connection not in the
registry; once `connect` completed, the final cleanup removal always
succeeds; and when acceptance fails before registration the cleanup is
never executed, leaving the registry unchanged. -/
theorem endpoint_cleanup_safety :
    (∀ (m : ConnectionManager) (ws : Nat),
        ws ∉ m.active_connections → m.disconnect ws = none)
    ∧ (∀ (m : ConnectionManager) (ws : Nat),
        websocketEndpointLifecycle ws true m
          = ({ active_connections := (m.active_connections ++ [ws]).erase ws },
             .cleanedOk))
    ∧ (∀ (m : ConnectionManager) (ws : Nat),
        websocketEndpointLifecycle ws false m = (m, .acceptFailed)) := by
  refine ⟨?_, ?_, fun m ws => rfl⟩
  · intro m ws h
    simp [ConnectionManager.disconnect, h]
  · intro m ws
    have hmem : ws ∈ m.active_connections ++ [ws] := by simp
    simp [websocketEndpointLifecycle, ConnectionManager.connect,
      ConnectionManager.disconnect, hmem]

/-- C10 witness: the three cleanup-safety statements at concrete
registries. -/
theorem endpoint_cleanup_safety_witness :
    ConnectionManager.disconnect { active_connections := [] } 0 = none
    ∧ websocketEndpointLifecycle 7 true { active_connections := [3] }
        = ({ active_connections := [3] }, .cleanedOk)
    ∧ websocketEndpointLifecycle 0 false { active_connections := [] }
        = ({ active_connections := [] }, .acceptFailed) :=
  ⟨endpoint_cleanup_safety.1 { active_connections := [] } 0 (by simp),
   by rw [endpoint_cleanup_safety.2.1 { active_connections := [3] } 7]; decide,
   endpoint_cleanup_safety.2.2 { active_connections := [] } 0⟩

/-- C4: guest credential synthesis — an absent username becomes `guest_`
plus six alphabet characters (matching `^guest_[a-z0-9]{6}$`), an absent
email becomes `guest_` plus eight alphabet characters plus
`@guest.devinclone.app` (matching its regex), and `is_guest` is true for
every input, including an explicit `is_guest=false`. -/
theorem guest_credential_synthesis (username email : Option String)
    (g : Option Bool) (s6 s8 : List Char)
    (h6len : s6.length = 6) (h6mem : ∀ c ∈ s6, c ∈ guestAlphabet)
    (h8len : s8.length = 8) (h8mem : ∀ c ∈ s8, c ∈ guestAlphabet) :
    matchesGuestUsername (generate_guest_credentials none email g s6 s8).username = true
    ∧ matchesGuestEmail (generate_guest_credentials username none g s6 s8).email = true
    ∧ ∀ (u e : Option String) (g' : Option Bool),
        (generate_guest_credentials u e g' s6 s8).is_guest = true := by
  have h6 : ("guest_".toList).length = 6 := rfl
  refine ⟨?_, ?_, fun u e g' => rfl⟩
  · have hu : (generate_guest_credentials none email g s6 s8).username
        = "guest_" ++ String.mk s6 := rfl
    have hl : ("guest_" ++ String.mk s6).toList = "guest_".toList ++ s6 := rfl
    have htake : (("guest_" ++ String.mk s6).toList).take 6 = "guest_".toList := by
      rw [hl]; exact List.take_left' h6
    have hdrop : (("guest_" ++ String.mk s6).toList).drop 6 = s6 := by
      rw [hl]; exact List.drop_left' h6
    rw [hu]
    simp only [matchesGuestUsername, htake, hdrop, h6len,
      Bool.and_eq_true, beq_iff_eq, List.all_eq_true]
    exact ⟨⟨trivial, trivial⟩, fun c hc => guestAlphabet_lowerAlnum c (h6mem c hc)⟩
  · have he : (generate_guest_credentials username none g s6 s8).email
        = "guest_" ++ String.mk s8 ++ "@guest.devinclone.app" := rfl
    have hl : ("guest_" ++ String.mk s8 ++ "@guest.devinclone.app").toList
        = "guest_".toList ++ (s8 ++ "@guest.devinclone.app".toList) := by
      show ("guest_".toList ++ s8) ++ "@guest.devinclone.app".toList
          = "guest_".toList ++ (s8 ++ "@guest.devinclone.app".toList)
      exact List.append_assoc _ _ _
    have htake : (("guest_" ++ String.mk s8 ++ "@guest.devinclone.app").toList).take 6
        = "guest_".toList := by
      rw [hl]; exact List.take_left' h6
    have hdrop : (("guest_" ++ String.mk s8 ++ "@guest.devinclone.app").toList).drop 6
        = s8 ++ "@guest.devinclone.app".toList := by
      rw [hl]; exact List.drop_left' h6
    rw [he]
    simp only [matchesGuestEmail, htake, hdrop,
      List.take_left' h8len, List.drop_left' h8len, h8len,
      Bool.and_eq_true, beq_iff_eq, List.all_eq_true]
    exact ⟨⟨⟨trivial, trivial⟩, fun c hc => guestAlphabet_lowerAlnum c (h8mem c hc)⟩, trivial⟩

/-- C4 witness: synthesis at the concrete draws `"abc123"` and
`"abcd1234"`, with `is_guest` forced true even for an explicit
`is_guest=false`. -/
theorem guest_credential_synthesis_witness :
    matchesGuestUsername
        (generate_guest_credentials none none (some false)
          "abc123".toList "abcd1234".toList).username = true
    ∧ matchesGuestEmail
        (generate_guest_credentials none none (some false)
          "abc123".toList "abcd1234".toList).email = true
    ∧ (generate_guest_credentials (some "caller") (some "caller@x.com")
          (some false) "abc123".toList "abcd1234".toList).is_guest = true := by
  have h := guest_credential_synthesis none none (some false)
    "abc123".toList "abcd1234".toList (by decide) (by decide) (by decide) (by decide)
  exact ⟨h.1, h.2.1, h.2.2 (some "caller") (some "caller@x.com") (some false)⟩

end UltraControl
